import Mathlib

/-!
Verification of the recipe-chatbot backend completion gateway
(`src/backend/utils.py`) against its specification.

The module holds a fixed system prompt, resolves a model identifier from the
environment once at startup, and exposes `get_agent_response`, which forwards
a conversation history to a remote completion endpoint and appends the
trimmed assistant reply.  The remote call (`litellm.completion`) is embedded
as an explicit function parameter returning `Except PyError Completion`, and
the process environment plus the `.env` settings file are embedded as lookup
functions `String → Option String`.
-/

namespace RecipeChatbot

/-- One conversation turn: a dict with "role" and "content"
(`List[Dict[str, str]]` items in `get_agent_response`). -/
structure Message where
  role : String
  content : String
deriving DecidableEq, Repr

/-- The "message" object inside one choice of the remote completion response.
`content` is `Option` because the JSON value may be null. -/
structure ChoiceMessage where
  content : Option String
deriving DecidableEq, Repr

/-- One element of the remote response's "choices" list.  `message` is
`Option` because the field may be missing from a malformed response. -/
structure Choice where
  message : Option ChoiceMessage
deriving DecidableEq, Repr

/-- The remote completion response: a list of candidate choices. -/
structure Completion where
  choices : List Choice
deriving DecidableEq, Repr

/-- Python exception values that can cross `get_agent_response`:
errors raised by the underlying litellm/HTTP client, and the indexing /
attribute errors raised by the content-extraction expression on lines 71-74
of `src/backend/utils.py`. -/
inductive PyError where
  | clientError (name : String) (detail : String)
  | indexError (detail : String)
  | keyError (key : String)
  | attributeError (detail : String)
deriving DecidableEq, Repr

/-- The fixed instruction text `SYSTEM_PROMPT` (lines 20-35 of
`src/backend/utils.py`). -/
def SYSTEM_PROMPT : String :=
  "You are a helpful and super talented chef turned assistant. Your goal is to provide recipes according to some criteria provided by the user. "
    ++ "You can expect the instructions to be provided mostly in English, although there might be inconsistent casing, questionable grammar, ambiguity or vagueness. "
    ++ "Disregard all queries that promote violence, unfairness, dangerous and/or unethical behaviours, illegal activities or harm. "
    ++ "Refrain from suggesting recipes that require exotic ingredients, whenever possible take into account any applicable seasonality that may be applicable to the ingredients. As of now it is late spring in the North hemisphere, and in Málaga (the place I live in) it is quite hot already, and humidity is kicking in. "
    ++ "One goal that you must fulfill is that the recipes must be healthy but tasty, and must lead to minimal waste (ideally none). "
    ++ "All the ingredients must be accompanied by the amounts required of each, in imperial units as well as SI units (unless the ingredient cannot be easily subdivided without leading to waste, e.g. eggs or oranges). "
    ++ "Whenever possible, provide substitute ingredients to maximise the usefulness of the recipe. Try to minimise the amount of ingredients overall, and the usage of expensive or non-ubiquitous ingredients whenever possible. "
    ++ "Users may specify constraints such as skill, dietarian preferences or restrictions (e.g. vegetarianism, veganism, lactose / gluten intolerance), goals (e.g. weight loss or weight gain), time or ingredients availability, and/or budget. "
    ++ "If you cannot ascertain that the user is seeking culinary advice, kindly apologise, reject the command and invite the user to try again. "
    ++ "The output must honor the following markup code: level-2 heading for the name of the recipe, followed by 2-3 lines describing the recipe in engaging but professional tone, followed by a section ### Ingredients listing all the ingredients in a unordered list, followed by a section ### Steps with all the instructions required to complete the recipe, in the correct order of execution, in a numbered list. "
    ++ "If some steps can be parallelized, please state it by introducing convenient indentation in the sequence of steps. "
    ++ "Feel free to add other sections at the bottom, such as ### Notes, ### Tips or ### Alternatives, as you see fit. "
    ++ "In general creativity is not an issue, but do not get over board, as you might be interacting with users whose skill would be a limiting factor. "
    ++ "Thank you upfront for your collaboration. "

/-- The system message injected by `get_agent_response` (line 62). -/
def systemMessage : Message :=
  ⟨"system", SYSTEM_PROMPT⟩

/-- `load_dotenv(override=False)` (line 16): the effective environment after
loading the settings file maps a key to the process-start environment value
when set, else to the settings-file value. -/
def load_dotenv (env dotenvFile : String → Option String) : String → Option String :=
  fun k => (env k).orElse (fun _ => dotenvFile k)

/-- `MODEL_NAME = os.environ.get("MODEL_NAME", "gpt-4o-mini")` (line 38),
read from the effective environment after `load_dotenv`. -/
def MODEL_NAME (env dotenvFile : String → Option String) : String :=
  (load_dotenv env dotenvFile "MODEL_NAME").getD "gpt-4o-mini"

/-- The condition `not messages or messages[0]["role"] != "system"`
(line 61). -/
def needs_system_injection (messages : List Message) : Bool :=
  match messages with
  | [] => true
  | m :: _ => m.role != "system"

/-- The local `current_messages` of `get_agent_response` (lines 60-64): the
input with the fixed system message prepended when the injection condition
holds. -/
def current_messages (messages : List Message) : List Message :=
  if needs_system_injection messages then systemMessage :: messages else messages

/-- Python `str.strip()` with no argument (line 73): removes leading and
trailing whitespace. -/
def pyStrip (s : String) : String :=
  ⟨((s.data.dropWhile Char.isWhitespace).reverse.dropWhile Char.isWhitespace).reverse⟩

/-- The expression `completion["choices"][0]["message"]["content"].strip()`
(lines 71-74): fails with an exception when the choices list is empty, the
message field is missing, or the content is null; otherwise yields the
trimmed content. -/
def assistant_reply_content (completion : Completion) : Except PyError String :=
  match completion.choices with
  | [] => Except.error (PyError.indexError "list index out of range")
  | choice :: _ =>
    match choice.message with
    | none => Except.error (PyError.keyError "message")
    | some msg =>
      match msg.content with
      | none => Except.error (PyError.attributeError "NoneType has no attribute strip")
      | some text => Except.ok (pyStrip text)

/-- The content of the first choice of a completion response, when the
response is well formed (`completion["choices"][0]["message"]["content"]`
before trimming). -/
def first_choice_content (completion : Completion) : Option String :=
  (completion.choices.head?.bind Choice.message).bind ChoiceMessage.content

/-- `get_agent_response` (lines 43-78).  `env` and `dotenvFile` embed the
process environment and the settings file; `remote` embeds
`litellm.completion`, taking the model identifier and the submitted message
list and either raising a `PyError` or returning a `Completion`. -/
def get_agent_response (env dotenvFile : String → Option String)
    (remote : String → List Message → Except PyError Completion)
    (messages : List Message) : Except PyError (List Message) :=
  match remote (MODEL_NAME env dotenvFile) (current_messages messages) with
  | Except.error e => Except.error e
  | Except.ok completion =>
    match assistant_reply_content completion with
    | Except.error e => Except.error e
    | Except.ok reply =>
      Except.ok (current_messages messages ++ [⟨"assistant", reply⟩])

/-! ### Helper lemmas -/

/-- The boolean injection condition agrees with the propositional phrasing
used by the specification. -/
theorem needs_system_injection_iff (messages : List Message) :
    needs_system_injection messages = true ↔
      (messages = [] ∨ messages.head?.map Message.role ≠ some "system") := by
  cases messages with
  | nil => simp [needs_system_injection]
  | cons m rest =>
    simp [needs_system_injection, bne_iff_ne]

/-- Structure of a successful run: the remote call succeeded on the prepared
message list, extraction succeeded, and the output is the prepared list plus
the assistant reply. -/
theorem get_agent_response_ok_iff (env dotenvFile : String → Option String)
    (remote : String → List Message → Except PyError Completion)
    (messages out : List Message) :
    get_agent_response env dotenvFile remote messages = Except.ok out ↔
      ∃ completion reply,
        remote (MODEL_NAME env dotenvFile) (current_messages messages) =
          Except.ok completion ∧
        assistant_reply_content completion = Except.ok reply ∧
        out = current_messages messages ++ [⟨"assistant", reply⟩] := by
  unfold get_agent_response
  cases hr : remote (MODEL_NAME env dotenvFile) (current_messages messages) with
  | error e => simp
  | ok completion =>
    cases hc : assistant_reply_content completion with
    | error e => simp [hc]
    | ok reply => simp [hc, eq_comm]

/-- When the first choice carries content `s`, the run succeeds and appends
the assistant message with `pyStrip s`. -/
theorem get_agent_response_of_content (env dotenvFile : String → Option String)
    (remote : String → List Message → Except PyError Completion)
    (messages : List Message) (completion : Completion) (s : String)
    (hr : remote (MODEL_NAME env dotenvFile) (current_messages messages) =
      Except.ok completion)
    (hc : first_choice_content completion = some s) :
    get_agent_response env dotenvFile remote messages =
      Except.ok (current_messages messages ++ [⟨"assistant", pyStrip s⟩]) := by
  have hrc : assistant_reply_content completion = Except.ok (pyStrip s) := by
    unfold first_choice_content at hc
    cases hch : completion.choices with
    | nil => rw [hch] at hc; simp at hc
    | cons choice rest =>
      rw [hch] at hc
      simp only [List.head?_cons, Option.some_bind] at hc
      cases hm : choice.message with
      | none => rw [hm] at hc; simp at hc
      | some msg =>
        rw [hm] at hc
        simp only [Option.some_bind] at hc
        cases hcont : msg.content with
        | none => rw [hcont] at hc; simp at hc
        | some text =>
          rw [hcont] at hc
          simp at hc
          simp [assistant_reply_content, hch, hm, hcont, hc]
  unfold get_agent_response
  rw [hr]
  simp [hrc]

/-! ### Concrete fixtures for the witness theorems -/

/-- An environment / settings file with no entries. -/
def envEmpty : String → Option String :=
  fun _ => none

/-- A sample user message. -/
def userHello : Message :=
  ⟨"user", "hello"⟩

/-- A well-formed remote response whose first choice carries content with
surrounding whitespace. -/
def okCompletion : Completion :=
  ⟨[⟨some ⟨some " Hi there "⟩⟩]⟩

/-- A remote endpoint that always returns `okCompletion`. -/
def okRemote : String → List Message → Except PyError Completion :=
  fun _ _ => Except.ok okCompletion

/-- The conversation returned for input `[userHello]` under `okRemote`. -/
def okOut : List Message :=
  [systemMessage, userHello, ⟨"assistant", "Hi there"⟩]

/-- A remote endpoint that always raises a client error. -/
def errRemote : String → List Message → Except PyError Completion :=
  fun _ _ => Except.error (PyError.clientError "APIConnectionError" "boom")

/-- A remote endpoint whose response has an empty choices list. -/
def badRemote : String → List Message → Except PyError Completion :=
  fun _ _ => Except.ok ⟨[]⟩

/-- An environment with MODEL_NAME set to "custom-model". -/
def envSet : String → Option String :=
  fun k => if k = "MODEL_NAME" then some "custom-model" else none

/-- A settings file carrying a different MODEL_NAME, to exercise
non-overriding. -/
def dotenvOther : String → Option String :=
  fun k => if k = "MODEL_NAME" then some "other-model" else none

/-- The conversation returned for the C9 witness input. -/
def c9out : List Message :=
  [systemMessage, ⟨"user", "u"⟩, ⟨"system", "late"⟩, ⟨"assistant", "Hi there"⟩]

/-- A second remote endpoint: a structurally different response carrying the
same first-choice content as `okCompletion`. -/
def okRemote2 : String → List Message → Except PyError Completion :=
  fun _ _ => Except.ok ⟨[⟨some ⟨some " Hi there "⟩⟩, ⟨none⟩]⟩

/-! ### Claims -/

/-- C1: on a successful run, the returned list with the appended reply
removed (which is exactly the sequence submitted to the remote model, as the
last conjunct records) equals the input with the fixed system message
prepended if and only if the input is empty or its first element's role is
not "system"; otherwise it is exactly the input with no injected message. -/
theorem C1_system_injection_iff (env dotenvFile : String → Option String)
    (remote : String → List Message → Except PyError Completion)
    (messages out : List Message)
    (h : get_agent_response env dotenvFile remote messages = Except.ok out) :
    (out.dropLast = systemMessage :: messages ↔
        messages = [] ∨ messages.head?.map Message.role ≠ some "system") ∧
    (¬(messages = [] ∨ messages.head?.map Message.role ≠ some "system") →
        out.dropLast = messages) ∧
    remote (MODEL_NAME env dotenvFile) out.dropLast =
      remote (MODEL_NAME env dotenvFile) (current_messages messages) := by
  obtain ⟨completion, reply, hr, hrc, hout⟩ :=
    (get_agent_response_ok_iff env dotenvFile remote messages out).mp h
  have hdl : out.dropLast = current_messages messages := by
    rw [hout]
    simp
  refine ⟨?_, ?_, by rw [hdl]⟩
  · rw [hdl]
    unfold current_messages
    by_cases hb : needs_system_injection messages = true
    · rw [if_pos hb]
      exact iff_of_true rfl ((needs_system_injection_iff messages).mp hb)
    · rw [if_neg hb]
      exact iff_of_false (fun heq => List.cons_ne_self _ _ heq.symm)
        (fun hcond => hb ((needs_system_injection_iff messages).mpr hcond))
  · intro hcond
    rw [hdl]
    unfold current_messages
    rw [if_neg (fun hb => hcond ((needs_system_injection_iff messages).mp hb))]

/-- Witness for C1 at the concrete input `[userHello]` under `okRemote`: the
first element has role "user", so the system message is injected. -/
theorem C1_system_injection_iff_witness :
    okOut.dropLast = systemMessage :: [userHello] :=
  (C1_system_injection_iff envEmpty envEmpty okRemote [userHello] okOut rfl).1.mpr
    (Or.inr (by decide))

/-- C2: when the remote call succeeds with a response whose first choice
carries content `s`, the run succeeds and the output is the submitted list
with exactly one new message appended at the end, of role "assistant" and
content `pyStrip s` (the whitespace-trimmed content). -/
theorem C2_appends_trimmed_reply (env dotenvFile : String → Option String)
    (remote : String → List Message → Except PyError Completion)
    (messages : List Message) (completion : Completion) (s : String)
    (hr : remote (MODEL_NAME env dotenvFile) (current_messages messages) =
      Except.ok completion)
    (hc : first_choice_content completion = some s) :
    get_agent_response env dotenvFile remote messages =
      Except.ok (current_messages messages ++ [⟨"assistant", pyStrip s⟩]) :=
  get_agent_response_of_content env dotenvFile remote messages completion s hr hc

/-- Witness for C2: under `okRemote` with content " Hi there ", the reply
appended to `[userHello]` is the assistant message "Hi there". -/
theorem C2_appends_trimmed_reply_witness :
    get_agent_response envEmpty envEmpty okRemote [userHello] =
      Except.ok (current_messages [userHello] ++
        [⟨"assistant", pyStrip " Hi there "⟩]) :=
  C2_appends_trimmed_reply envEmpty envEmpty okRemote [userHello] okCompletion
    " Hi there " rfl rfl

/-- C3: on a successful run, the output length is the input length plus one
for the appended assistant reply, plus one more exactly when the system
instruction message was injected. -/
theorem C3_output_length (env dotenvFile : String → Option String)
    (remote : String → List Message → Except PyError Completion)
    (messages out : List Message)
    (h : get_agent_response env dotenvFile remote messages = Except.ok out) :
    out.length = messages.length + 1 +
      (if messages = [] ∨ messages.head?.map Message.role ≠ some "system"
        then 1 else 0) := by
  obtain ⟨completion, reply, hr, hrc, hout⟩ :=
    (get_agent_response_ok_iff env dotenvFile remote messages out).mp h
  subst hout
  unfold current_messages
  by_cases hb : needs_system_injection messages = true
  · rw [if_pos hb, if_pos ((needs_system_injection_iff messages).mp hb)]
    simp
  · rw [if_neg hb,
      if_neg (fun hcond => hb ((needs_system_injection_iff messages).mpr hcond))]
    simp

/-- Witness for C3: for input `[userHello]` the output has length 3
(injection happened, so 1 + 1 + 1). -/
theorem C3_output_length_witness :
    okOut.length = ([userHello] : List Message).length + 1 +
      (if [userHello] = [] ∨
          ([userHello] : List Message).head?.map Message.role ≠ some "system"
        then 1 else 0) :=
  C3_output_length envEmpty envEmpty okRemote [userHello] okOut rfl

/-- C4: the embedding of `get_agent_response` is a pure function of its
argument, so the caller's list is never mutated (whether the call succeeds
or raises, the argument denotes the same sequence); on success the returned
list is a new, strictly longer sequence containing the input messages, in
order, at the positions corresponding to the input: with the appended reply
removed it is either exactly the input or the input below the one injected
system message. -/
theorem C4_input_preserved (env dotenvFile : String → Option String)
    (remote : String → List Message → Except PyError Completion)
    (messages out : List Message)
    (h : get_agent_response env dotenvFile remote messages = Except.ok out) :
    messages.length < out.length ∧
      (out.dropLast = messages ∨ out.dropLast = systemMessage :: messages) := by
  obtain ⟨completion, reply, hr, hrc, hout⟩ :=
    (get_agent_response_ok_iff env dotenvFile remote messages out).mp h
  have hdl : out.dropLast = current_messages messages := by
    rw [hout]
    simp
  constructor
  · rw [hout, List.length_append]
    unfold current_messages
    by_cases hb : needs_system_injection messages = true
    · rw [if_pos hb]
      simp only [List.length_cons, List.length_singleton]
      omega
    · rw [if_neg hb]
      simp
  · rw [hdl]
    unfold current_messages
    by_cases hb : needs_system_injection messages = true
    · rw [if_pos hb]
      exact Or.inr rfl
    · rw [if_neg hb]
      exact Or.inl rfl

/-- Witness for C4 at input `[userHello]` under `okRemote`. -/
theorem C4_input_preserved_witness :
    ([userHello] : List Message).length < okOut.length ∧
      (okOut.dropLast = [userHello] ∨
        okOut.dropLast = systemMessage :: [userHello]) :=
  C4_input_preserved envEmpty envEmpty okRemote [userHello] okOut rfl

/-- C5: a successful run returns a conversation satisfying the invariant:
it is non-empty, its first element has role "system", and the element at
position 1 (if any) does not have role "system" whenever the input element
at position 1 did not — so the leading system message is unique. -/
theorem C5_conversation_invariant (env dotenvFile : String → Option String)
    (remote : String → List Message → Except PyError Completion)
    (messages out : List Message)
    (h : get_agent_response env dotenvFile remote messages = Except.ok out) :
    out ≠ [] ∧ out.head?.map Message.role = some "system" ∧
      (messages[1]?.map Message.role ≠ some "system" →
        out[1]?.map Message.role ≠ some "system") := by
  obtain ⟨completion, reply, hr, hrc, hout⟩ :=
    (get_agent_response_ok_iff env dotenvFile remote messages out).mp h
  subst hout
  cases messages with
  | nil =>
    refine ⟨by simp [current_messages, needs_system_injection], ?_, ?_⟩
    · simp [current_messages, needs_system_injection, systemMessage]
    · intro _
      simp [current_messages, needs_system_injection]
  | cons m rest =>
    by_cases hrole : m.role = "system"
    · have hcur : current_messages (m :: rest) = m :: rest := by
        simp [current_messages, needs_system_injection, hrole]
      rw [hcur]
      refine ⟨by simp, by simp [hrole], ?_⟩
      intro hm1
      cases rest with
      | nil => simp
      | cons r rest2 =>
        simp only [List.cons_append, List.getElem?_cons_succ,
          List.getElem?_cons_zero] at hm1 ⊢
        exact hm1
    · have hcur : current_messages (m :: rest) =
          systemMessage :: m :: rest := by
        simp [current_messages, needs_system_injection, hrole]
      rw [hcur]
      refine ⟨by simp, by simp [systemMessage], ?_⟩
      intro _
      simp [hrole]

/-- Witness for C5 at input `[userHello]` under `okRemote`. -/
theorem C5_conversation_invariant_witness :
    okOut ≠ [] ∧ okOut.head?.map Message.role = some "system" ∧
      (([userHello] : List Message)[1]?.map Message.role ≠ some "system" →
        okOut[1]?.map Message.role ≠ some "system") :=
  C5_conversation_invariant envEmpty envEmpty okRemote [userHello] okOut rfl

/-- C6: if the remote completion call raises error `e`, `get_agent_response`
propagates exactly that error value, unchanged — no catching, wrapping,
retrying, or classification — and returns no conversation. -/
theorem C6_propagates_remote_error (env dotenvFile : String → Option String)
    (remote : String → List Message → Except PyError Completion)
    (messages : List Message) (e : PyError)
    (hr : remote (MODEL_NAME env dotenvFile) (current_messages messages) =
      Except.error e) :
    get_agent_response env dotenvFile remote messages = Except.error e := by
  unfold get_agent_response
  rw [hr]

/-- Witness for C6: a failing remote call surfaces its own error. -/
theorem C6_propagates_remote_error_witness :
    get_agent_response envEmpty envEmpty errRemote [userHello] =
      Except.error (PyError.clientError "APIConnectionError" "boom") :=
  C6_propagates_remote_error envEmpty envEmpty errRemote [userHello]
    (PyError.clientError "APIConnectionError" "boom") rfl

/-- C7: when the remote call succeeds but the response is malformed — the
choices list is empty, the first choice's message field is missing, or the
first choice's content is absent — the run fails with the error raised at
the content-extraction step and returns no conversation. -/
theorem C7_malformed_extraction_fails (env dotenvFile : String → Option String)
    (remote : String → List Message → Except PyError Completion)
    (messages : List Message) (completion : Completion)
    (hr : remote (MODEL_NAME env dotenvFile) (current_messages messages) =
      Except.ok completion)
    (hm : completion.choices = [] ∨
      ∃ choice rest, completion.choices = choice :: rest ∧
        (choice.message = none ∨
          choice.message.bind ChoiceMessage.content = none)) :
    ∃ e, assistant_reply_content completion = Except.error e ∧
      get_agent_response env dotenvFile remote messages = Except.error e := by
  have hx : ∃ e, assistant_reply_content completion = Except.error e := by
    rcases hm with hnil | ⟨choice, rest, hch, hbad⟩
    · exact ⟨PyError.indexError "list index out of range",
        by simp [assistant_reply_content, hnil]⟩
    · cases hmsg : choice.message with
      | none =>
        exact ⟨PyError.keyError "message",
          by simp [assistant_reply_content, hch, hmsg]⟩
      | some msg =>
        have hcont : msg.content = none := by
          rcases hbad with hnone | hcont
          · rw [hmsg] at hnone
            cases hnone
          · rw [hmsg] at hcont
            simpa using hcont
        exact ⟨PyError.attributeError "NoneType has no attribute strip",
          by simp [assistant_reply_content, hch, hmsg, hcont]⟩
  obtain ⟨e, he⟩ := hx
  refine ⟨e, he, ?_⟩
  unfold get_agent_response
  rw [hr]
  simp [he]

/-- Witness for C7: an empty choices list makes the run fail at
extraction. -/
theorem C7_malformed_extraction_fails_witness :
    ∃ e, assistant_reply_content ⟨[]⟩ = Except.error e ∧
      get_agent_response envEmpty envEmpty badRemote [userHello] =
        Except.error e :=
  C7_malformed_extraction_fails envEmpty envEmpty badRemote [userHello] ⟨[]⟩
    rfl (Or.inl rfl)

/-- C8: the resolved model identifier equals the MODEL_NAME value already
set in the process environment when one is set (the settings file does not
override it), and equals the hardcoded default "gpt-4o-mini" when the
variable is unset (neither in the environment nor in the settings file); it
is a single value fixed by the startup environment, and the last conjunct
records that this very value is the one handed to the remote call on every
invocation. -/
theorem C8_model_name_resolution (env dotenvFile : String → Option String) :
    (∀ v, env "MODEL_NAME" = some v → MODEL_NAME env dotenvFile = v) ∧
    (env "MODEL_NAME" = none → dotenvFile "MODEL_NAME" = none →
      MODEL_NAME env dotenvFile = "gpt-4o-mini") ∧
    (∀ messages, get_agent_response env dotenvFile
        (fun model _ => Except.error (PyError.clientError model "spy"))
        messages =
      Except.error (PyError.clientError (MODEL_NAME env dotenvFile) "spy")) := by
  refine ⟨?_, ?_, ?_⟩
  · intro v hv
    simp [ MODEL_NAME, load_dotenv, hv]
  · intro h1 h2
    simp [ MODEL_NAME, load_dotenv, h1, h2]
  · intro messages
    rfl

/-- Witness for C8: a set environment value wins over the settings file, an
unset variable falls back to the default, and the spy endpoint observes the
resolved identifier. -/
theorem C8_model_name_resolution_witness :
    MODEL_NAME envSet dotenvOther = "custom-model" ∧
    MODEL_NAME envEmpty envEmpty = "gpt-4o-mini" ∧
    get_agent_response envEmpty envEmpty
        (fun model _ => Except.error (PyError.clientError model "spy")) [] =
      Except.error (PyError.clientError (MODEL_NAME envEmpty envEmpty) "spy") :=
  ⟨(C8_model_name_resolution envSet dotenvOther).1 "custom-model" (by decide),
    (C8_model_name_resolution envEmpty envEmpty).2.1 rfl rfl,
    (C8_model_name_resolution envEmpty envEmpty).2.2 []⟩

/-- C9: the injection decision looks only at emptiness and the first
element's role: when a non-empty input starts with a non-"system" role but
contains a "system"-role message later, the fixed system prompt is still
injected at position 0, so the returned conversation holds more than one
message with role "system". -/
theorem C9_duplicate_system_possible (env dotenvFile : String → Option String)
    (remote : String → List Message → Except PyError Completion)
    (m : Message) (rest out : List Message)
    (hrole : m.role ≠ "system")
    (hsys : ∃ x ∈ rest, x.role = "system")
    (h : get_agent_response env dotenvFile remote (m :: rest) =
      Except.ok out) :
    out.head? = some systemMessage ∧
      1 < out.countP (fun x => x.role == "system") := by
  obtain ⟨completion, reply, hr, hrc, hout⟩ :=
    (get_agent_response_ok_iff env dotenvFile remote (m :: rest) out).mp h
  have hcur : current_messages (m :: rest) = systemMessage :: m :: rest := by
    simp [current_messages, needs_system_injection, hrole]
  subst hout
  rw [hcur]
  obtain ⟨x, hx, hxs⟩ := hsys
  refine ⟨by simp, ?_⟩
  simp only [List.cons_append, List.countP_cons, List.countP_append,
    List.countP_nil, systemMessage]
  simp [hrole]
  exact ⟨x, hx, hxs⟩

/-- Witness for C9: an input starting with a user turn but holding a later
system turn ends with two system-role messages in the output. -/
theorem C9_duplicate_system_possible_witness :
    c9out.head? = some systemMessage ∧
      1 < c9out.countP (fun x => x.role == "system") :=
  C9_duplicate_system_possible envEmpty envEmpty okRemote ⟨"user", "u"⟩
    [⟨"system", "late"⟩] c9out (by decide)
    ⟨⟨"system", "late"⟩, by simp, rfl⟩ rfl

/-- C10: determinism given the input and the remote content — two runs on
equal inputs whose remote calls succeed with responses carrying the same
first-choice message content return equal conversations. -/
theorem C10_deterministic (env dotenvFile : String → Option String)
    (remote1 remote2 : String → List Message → Except PyError Completion)
    (messages : List Message) (resp1 resp2 : Completion) (s : String)
    (h1 : remote1 (MODEL_NAME env dotenvFile) (current_messages messages) =
      Except.ok resp1)
    (h2 : remote2 (MODEL_NAME env dotenvFile) (current_messages messages) =
      Except.ok resp2)
    (hc1 : first_choice_content resp1 = some s)
    (hc2 : first_choice_content resp2 = some s) :
    get_agent_response env dotenvFile remote1 messages =
      get_agent_response env dotenvFile remote2 messages := by
  rw [get_agent_response_of_content env dotenvFile remote1 messages resp1 s
      h1 hc1,
    get_agent_response_of_content env dotenvFile remote2 messages resp2 s
      h2 hc2]

/-- Witness for C10: `okRemote` and `okRemote2` return different response
objects with the same first-choice content, and the runs agree. -/
theorem C10_deterministic_witness :
    get_agent_response envEmpty envEmpty okRemote [userHello] =
      get_agent_response envEmpty envEmpty okRemote2 [userHello] :=
  C10_deterministic envEmpty envEmpty okRemote okRemote2 [userHello]
    okCompletion ⟨[⟨some ⟨some " Hi there "⟩⟩, ⟨none⟩]⟩ " Hi there "
    rfl rfl rfl rfl

end RecipeChatbot
